import Mathlib

/-!
# Verification of the `AttributionModel.attribute` orchestration core

A shallow embedding of `src/inseq/models/attribution_model.py`: the
`AttributionModel` state, the `attribute` orchestration pipeline, method and
attributed-function resolution, and the property wiring of
`default_attributed_fn_id`.

External collaborators that are not part of the repository sources
(the generation backend, the attribution-method dispatch
`prepare_and_attribute`, the step-score registry contents, the device
validator `check_device`) are modelled as parameters bundled in a `Backend`
record, so every theorem quantifies over them.  Observable side effects that
the Python code performs on collaborators (calling `unhook()` on a bound
method, invoking the generation backend, invoking the dispatch routine) are
recorded in explicit logs in the result record, mirroring the call sites in
the source.
-/

deriving instance DecidableEq for Except

/-- Errors raised by the orchestration core.  `valueError` models Python
`ValueError` / `AttributeError`-style messages, `lengthMismatch` the
`LengthMismatchError` exported by `inseq.utils`, `assertionError` the failed
`assert` at line 268, and `backendError` an opaque exception escaping from a
collaborator (generation backend or attribution dispatch). -/
inductive InseqError where
  | valueError (msg : String)
  | lengthMismatch
  | missingAttributionMethod
  | assertionError (msg : String)
  | attributeError (msg : String)
  | backendError (msg : String)
  deriving Repr, DecidableEq

/-- The `TextInput` union type: a single string or a list of strings. -/
inductive TextInput where
  | str (s : String)
  | list (l : List String)
  deriving Repr, DecidableEq

/-- Python truthiness of a `TextInput` value (used by `if not input_texts`
at line 228): an empty string and an empty list are falsy. -/
def pyTruthy : TextInput → Bool
  | .str s => s != ""
  | .list l => !l.isEmpty

/-- Normalization of a `TextInput` to a list of strings (a single string is
promoted to a one-element list). -/
def TextInput.toList : TextInput → List String
  | .str s => [s]
  | .list l => l

/-- Python truthiness of an optional string (`if device and original_device`
at line 311, `if not method` at line 124): `None` and the empty string are
falsy. -/
def optStrTruthy : Option String → Bool
  | none => false
  | some s => s != ""

/-- The mutable state of an `AttributionModel` instance relevant to the
claims: architecture flag, `_device`, the bound attribution method
(identified by its `method_name`), and `_default_attributed_fn_id`
(lines 68-79 of attribution_model.py). -/
structure AttributionModel where
  is_encoder_decoder : Bool
  _device : Option String
  attribution_method : Option String
  _default_attributed_fn_id : String
  deriving Repr, DecidableEq

/-- Observable side effects of attribution-method resolution: the
`unhook()` call on a previously bound method (line 129) and the
`FeatureAttribution.load` call (lines 133 and 136). -/
inductive MethodEffect where
  | unhook (name : String)
  | load (name : String)
  deriving Repr, DecidableEq

/-- The arguments the code hands to
`attribution_method.prepare_and_attribute` (lines 286-302).  `method` is the
`method_name` of the resolved attribution method receiving the call; the
introspected argument partitions (`attribution_args`, `attributed_fn_args`,
`step_scores_args`, from `extract_args` which lives outside src/) are not
modelled. -/
structure PrepArgs (F : Type) where
  method : String
  input_texts : List String
  generated_texts : List String
  batch_size : Option Nat
  attr_pos_start : Option Int
  attr_pos_end : Option Int
  show_progress : Bool
  pretty_progress : Bool
  output_step_attributions : Bool
  attribute_target : Bool
  step_scores : List String
  include_eos_baseline : Bool
  attributed_fn : F
  deriving Repr, DecidableEq

/-- The `info` metadata attached to the merged output (lines 304-310).
`generate_from_target_pfx` embeds the source field
`generate_from_target_prefix`. -/
structure AttrInfo where
  input_texts : List String
  generated_texts : List String
  generation_args : List (String × String)
  constrained_decoding : Bool
  generate_from_target_pfx : Bool
  deriving Repr, DecidableEq

/-- The user-facing result: the merged payload produced by the attribution
method plus the run metadata. -/
structure FeatureAttributionOutput (β : Type) where
  payload : β
  info : AttrInfo
  deriving Repr, DecidableEq

/-- External collaborators of the orchestration core, quantified over in
every theorem.  `check_device` is modelled from the spec: the device setter
validates the identifier before mutating state (torch_utils is absent from
src/).  `generate` is the opaque generation backend, receiving the input
texts and the generation arguments.  `encode_repr` stands for the encoding
of target texts whose ids are inserted as `decoder_input_ids` (line 251).
`dispatch` is `prepare_and_attribute` of the resolved method, and `merge` is
`FeatureAttributionOutput.merge_attributions` (line 303); both live outside
src/ and are opaque here. -/
structure Backend (F β : Type) where
  check_device : String → Bool
  isnotebook : Bool
  step_scores_map : List (String × F)
  generate : List String → List (String × String) → Except InseqError (List String)
  encode_repr : List String → String
  dispatch : PrepArgs F → Except InseqError (List β)
  merge : List β → β

/-- The argument value passed as `attributed_fn` to `attribute`: absent, a
string key, or a callable. -/
inductive AttributedFnArg (F : Type) where
  | noneArg
  | strArg (s : String)
  | fnArg (f : F)
  deriving Repr, DecidableEq

/-- The keyword arguments of `AttributionModel.attribute` (lines 152-171),
with the source defaults.  `generate_from_target_pfx` embeds the source
argument `generate_from_target_prefix`. -/
structure AttributeArgs (F : Type) where
  input_texts : TextInput
  generated_texts : Option TextInput := none
  method : Option String := none
  override_default_attribution : Bool := false
  attr_pos_start : Option Int := none
  attr_pos_end : Option Int := none
  show_progress : Bool := true
  pretty_progress : Bool := false
  output_step_attributions : Bool := false
  attribute_target : Bool := false
  step_scores : List String := []
  include_eos_baseline : Bool := false
  attributed_fn : AttributedFnArg F := .noneArg
  device : Option String := none
  batch_size : Option Nat := none
  generate_from_target_pfx : Bool := false
  generation_args : List (String × String) := []
  deriving Repr, DecidableEq

/-- The full observable outcome of one `attribute` call: the model state
after the call, the warnings emitted, the method-resolution side effects,
the calls made to the generation backend (arguments of each), the single
`prepare_and_attribute` invocation if one was made, and the returned value
or the exception escaping to the caller. -/
structure AttributeResult (F β : Type) where
  model : AttributionModel
  warnings : List String
  effects : List MethodEffect
  gen_calls : List (List String × List (String × String))
  dispatched : Option (PrepArgs F)
  result : Except InseqError (FeatureAttributionOutput β)
  deriving Repr

/-- The message of the unknown-step-function error raised at lines 107 and
146-148 (the source interpolates the offending key into the message). -/
def unknownFunctionMsg (s : String) : String :=
  "Unknown function: " ++ s ++ ". Register custom functions with inseq.register_step_function"

/-- The device property setter (lines 85-90): validate the identifier via
`check_device`, then mutate `_device`.  `check_device` is modelled from the
spec: it validates the device identifier and raises on an invalid one
(`inseq.utils.torch_utils` is absent from src/).  The `model.to` move is not
modelled. -/
def set_device {F β : Type} (B : Backend F β) (m : AttributionModel) (d : String) :
    Except InseqError AttributionModel :=
  if B.check_device d then .ok { m with _device := some d }
  else .error (.valueError ("Invalid device: " ++ d))

/-- Modelled from the spec: `format_input_texts` (`inseq.utils.misc`, absent
from src/) normalizes the input and generated/target text arguments into
parallel lists of equal length (a single string is promoted to a one-element
list) and raises `LengthMismatchError` when the number of supplied targets
differs from the number of inputs. -/
def format_input_texts (texts : TextInput) (ref_texts : Option TextInput) :
    Except InseqError (List String × Option (List String)) :=
  let ts := texts.toList
  match ref_texts with
  | none => .ok (ts, none)
  | some r =>
    let rs := r.toList
    if ts.length == rs.length then .ok (ts, some rs) else .error .lengthMismatch

/-- Modelled from the spec: `FeatureAttribution.load` (`inseq.attr.feat`,
absent from src/) resolves a named strategy from the attribution-method
registry; the resolved strategy carries the requested name as its
`method_name`. -/
def FeatureAttribution.load (method : String) : String := method

/-- `AttributionModel.get_attribution_method` (lines 117-137): returns the
updated model state, the side effects performed (unhook of a previously
bound method, load of the requested one), and the resolved method or the
missing-method error. -/
def get_attribution_method (m : AttributionModel) (method : Option String)
    (override_default_attribution : Bool) :
    AttributionModel × List MethodEffect × Except InseqError String :=
  if !(optStrTruthy method) then
    match m.attribution_method with
    | none => (m, [], .error .missingAttributionMethod)
    | some am => (m, [], .ok am)
  else
    let name := method.getD ""
    let effs : List MethodEffect :=
      match m.attribution_method with
      | some prev => [.unhook prev]
      | none => []
    let loaded := FeatureAttribution.load name
    if override_default_attribution || m.attribution_method.isNone then
      ({ m with attribution_method := some loaded }, effs ++ [.load name], .ok loaded)
    else
      (m, effs ++ [.load name], .ok loaded)

/-- Lookup of a string key in the step-score registry, raising the
unknown-function `ValueError` of lines 145-148 when absent. -/
def resolveStepFn {F : Type} (map : List (String × F)) (s : String) : Except InseqError F :=
  match List.lookup s map with
  | some f => .ok f
  | none => .error (.valueError (unknownFunctionMsg s))

/-- `AttributionModel.get_attributed_fn` (lines 139-150): `None` falls back
to the default attributed-function id, a string key is looked up in
`STEP_SCORES_MAP`, a callable passes through unchanged. -/
def get_attributed_fn {F : Type} (map : List (String × F)) (default_id : String) :
    AttributedFnArg F → Except InseqError F
  | .noneArg => resolveStepFn map default_id
  | .strArg s => resolveStepFn map s
  | .fnArg f => .ok f

/-- The validating setter body of lines 104-108.  Because the decorator
`@default_attributed_fn_id.setter` is applied to a function named
`set_attributed_fn`, CPython binds the resulting property (getter plus this
setter) under the class attribute `set_attributed_fn`; consequently this
validator runs on assignment to `model.set_attributed_fn`. -/
def set_attributed_fn {F : Type} (map : List (String × F)) (m : AttributionModel)
    (fn : String) : Except InseqError AttributionModel :=
  if (List.lookup fn map).isSome then
    .ok { m with _default_attributed_fn_id := fn }
  else
    .error (.valueError (unknownFunctionMsg fn))

/-- Python attribute assignment to `model.default_attributed_fn_id`.  The
class attribute `default_attributed_fn_id` remains the getter-only property
created at lines 100-102 (the setter at lines 104-108 was bound under the
separate name `set_attributed_fn`), and under the descriptor protocol
assigning to a property without a setter raises `AttributeError`, for every
value. -/
def assign_default_attributed_fn_id (_m : AttributionModel) (_v : String) :
    Except InseqError AttributionModel :=
  .error (.attributeError "property default_attributed_fn_id has no setter")

/-- Python `str.startswith`, computed structurally on the character lists
(the argument order matches `generated.startswith(input)`). -/
def strStartsWith (s pre : String) : Bool :=
  pre.data.isPrefixOf s.data

/-- The decoder-only forced-generation precondition of lines 267-270: every
generated text must start with its paired input text. -/
def forcedGenOk (input_texts generated_texts : List String) : Bool :=
  (List.range input_texts.length).all fun i =>
    strStartsWith (generated_texts.getD i "") (input_texts.getD i "")

/-- The ambient context of one `attribute` call, threaded through the
pipeline stages below: the collaborators, the (flag-forced) call arguments,
and the pre-call device captured at line 238. -/
structure Ctx (F β : Type) where
  B : Backend F β
  a : AttributeArgs F
  original_device : Option String

/-- The batch-size forcing of lines 271-285, applied in source order: the
decoder-only constrained-decoding override, then the decoder-only
custom-position override, then the LIME override. -/
def computeBatchSize {F β : Type} (c : Ctx F β) (m2 : AttributionModel)
    (has_generated_texts : Bool) (n : Nat) (attribution_method : String) : Option Nat :=
  let bs1 :=
    if !m2.is_encoder_decoder && has_generated_texts && decide (n > 1)
    then some 1 else c.a.batch_size
  let bs2 :=
    if !m2.is_encoder_decoder && decide (n > 1)
        && (c.a.attr_pos_start.isSome || c.a.attr_pos_end.isSome)
    then some 1 else bs1
  if attribution_method == "lime" then some 1 else bs2

/-- The arguments of the `prepare_and_attribute` call of lines 286-302. -/
def mkPrepArgs {F β : Type} (c : Ctx F β) (m2 : AttributionModel)
    (input_texts generated_texts : List String) (has_generated_texts : Bool)
    (attribution_method : String) (attributed_fn : F) : PrepArgs F :=
  ⟨attribution_method, input_texts, generated_texts,
    computeBatchSize c m2 has_generated_texts input_texts.length attribution_method,
    c.a.attr_pos_start, c.a.attr_pos_end, c.a.show_progress,
    (if c.B.isnotebook then false else c.a.pretty_progress),
    c.a.output_step_attributions, c.a.attribute_target, c.a.step_scores,
    c.a.include_eos_baseline, attributed_fn⟩

/-- Pipeline tail: the device restore of lines 311-312 and the return of the
merged output (line 313).  Restoration only happens on this normal-return
path, and only when both the `device` argument and the pre-call device are
truthy; it re-enters the validating device setter. -/
def attrFinishStage {F β : Type} (c : Ctx F β) (m2 : AttributionModel)
    (warns : List String) (effs : List MethodEffect)
    (gcalls : List (List String × List (String × String))) (p : PrepArgs F)
    (payload : β) (info : AttrInfo) : AttributeResult F β :=
  let restore : Except InseqError AttributionModel :=
    if optStrTruthy c.a.device && optStrTruthy c.original_device then
      set_device c.B m2 (c.original_device.getD "")
    else .ok m2
  match restore with
  | .error e => ⟨m2, warns, effs, gcalls, some p, .error e⟩
  | .ok m3 => ⟨m3, warns, effs, gcalls, some p, .ok ⟨payload, info⟩⟩

/-- Pipeline stage: the decoder-only forced-generation assertion of lines
267-270, the batch-size forcing of lines 271-285, and the dispatch to
`prepare_and_attribute` with output merge (lines 286-303). -/
def attrDispatchStage {F β : Type} (c : Ctx F β) (m2 : AttributionModel)
    (warns : List String) (effs : List MethodEffect)
    (gcalls : List (List String × List (String × String)))
    (input_texts generated_texts : List String)
    (generation_args : List (String × String)) (has_generated_texts : Bool)
    (attribution_method : String) (attributed_fn : F) : AttributeResult F β :=
  if !m2.is_encoder_decoder && !(forcedGenOk input_texts generated_texts) then
    ⟨m2, warns, effs, gcalls, none,
      .error (.assertionError
        "Forced generations with decoder-only models must start with the input texts.")⟩
  else
    let p := mkPrepArgs c m2 input_texts generated_texts has_generated_texts
      attribution_method attributed_fn
    match c.B.dispatch p with
    | .error e => ⟨m2, warns, effs, gcalls, some p, .error e⟩
    | .ok outs =>
      attrFinishStage c m2 warns effs gcalls p (c.B.merge outs)
        ⟨input_texts, generated_texts, generation_args, has_generated_texts,
          c.a.generate_from_target_pfx⟩

/-- Pipeline stage: resolution of the attributed function (line 260). -/
def attrFnStage {F β : Type} (c : Ctx F β) (m2 : AttributionModel)
    (warns : List String) (effs : List MethodEffect)
    (gcalls : List (List String × List (String × String)))
    (input_texts generated_texts : List String)
    (generation_args : List (String × String)) (has_generated_texts : Bool)
    (attribution_method : String) : AttributeResult F β :=
  match get_attributed_fn c.B.step_scores_map m2._default_attributed_fn_id
      c.a.attributed_fn with
  | .error e => ⟨m2, warns, effs, gcalls, none, .error e⟩
  | .ok attributed_fn =>
    attrDispatchStage c m2 warns effs gcalls input_texts generated_texts
      generation_args has_generated_texts attribution_method attributed_fn

/-- Pipeline stage: resolution of the attribution method (line 259). -/
def attrMethodStage {F β : Type} (c : Ctx F β) (m1 : AttributionModel)
    (warns : List String)
    (gcalls : List (List String × List (String × String)))
    (input_texts generated_texts : List String)
    (generation_args : List (String × String)) (has_generated_texts : Bool) :
    AttributeResult F β :=
  match get_attribution_method m1 c.a.method c.a.override_default_attribution with
  | (m2, effs, .error e) => ⟨m2, warns, effs, gcalls, none, .error e⟩
  | (m2, effs, .ok attribution_method) =>
    attrFnStage c m2 warns effs gcalls input_texts generated_texts
      generation_args has_generated_texts attribution_method

/-- Pipeline stage: lines 245-258.  If no target texts were supplied, or the
supplied ones serve only as decoding prefixes, the generation backend is
invoked (with `decoder_input_ids` added to the generation arguments in the
prefix case, line 251); otherwise the supplied targets are used directly and
non-empty generation arguments draw an ignored-arguments warning. -/
def attrGenStage {F β : Type} (c : Ctx F β) (m1 : AttributionModel)
    (input_texts : List String) (genOpt : Option (List String)) : AttributeResult F β :=
  let has_generated_texts := genOpt.isSome
  let needGen := !has_generated_texts || c.a.generate_from_target_pfx
  let gargs :=
    if c.a.generate_from_target_pfx then
      c.a.generation_args ++ [("decoder_input_ids", c.B.encode_repr (genOpt.getD []))]
    else c.a.generation_args
  let gcalls : List (List String × List (String × String)) :=
    if needGen then [(input_texts, gargs)] else []
  let warns : List String :=
    if needGen || c.a.generation_args.isEmpty then []
    else ["Generation arguments are provided, but will be ignored (constrained decoding)."]
  match (if needGen then c.B.generate input_texts gargs else .ok (genOpt.getD [])) with
  | .error e => ⟨m1, warns, [], gcalls, none, .error e⟩
  | .ok generated_texts =>
    attrMethodStage c m1 warns gcalls input_texts generated_texts gargs
      has_generated_texts

/-- Pipeline stage: input/target normalization (line 241). -/
def attrFormatStage {F β : Type} (c : Ctx F β) (m1 : AttributionModel) :
    AttributeResult F β :=
  match format_input_texts c.a.input_texts c.a.generated_texts with
  | .error e => ⟨m1, [], [], [], none, .error e⟩
  | .ok (input_texts, genOpt) => attrGenStage c m1 input_texts genOpt

/-- The body of `attribute` from the device override onward (lines 238-313),
applied after the empty-input check and the architecture-flag forcing.  The
flag values read from `a` are the already-forced ones. -/
def attributeWithFlags {F β : Type} (B : Backend F β) (m0 : AttributionModel)
    (a : AttributeArgs F) : AttributeResult F β :=
  let c : Ctx F β := ⟨B, a, m0._device⟩
  match (match a.device with | none => .ok m0 | some d => set_device B m0 d :
      Except InseqError AttributionModel) with
  | .error e => ⟨m0, [], [], [], none, .error e⟩
  | .ok m1 => attrFormatStage c m1

/-- `AttributionModel.attribute` (lines 228-313): empty-input validation,
forcing of the encoder-decoder-only flags with warnings, then the main
pipeline.  Warnings emitted by the flag forcing are prepended to those of
the pipeline. -/
def AttributionModel.attribute {F β : Type} (B : Backend F β) (m0 : AttributionModel)
    (a : AttributeArgs F) : AttributeResult F β :=
  if !(pyTruthy a.input_texts) then
    ⟨m0, [], [], [], none,
      .error (.valueError "At least one text must be provided to perform attribution.")⟩
  else
    let (attribute_target, w1) :=
      if a.attribute_target && !m0.is_encoder_decoder then
        (false,
          ["attribute_target parameter is set to True, but will be ignored (not an encoder-decoder)."])
      else (a.attribute_target, [])
    let (gen_pfx, w2) :=
      if a.generate_from_target_pfx && !m0.is_encoder_decoder then
        (false,
          ["generate_from_target_prefix parameter is set to True, but will be ignored (not an encoder-decoder)."])
      else (a.generate_from_target_pfx, [])
    let r := attributeWithFlags B m0
      { a with attribute_target := attribute_target, generate_from_target_pfx := gen_pfx }
    { r with warnings := (w1 ++ w2) ++ r.warnings }

/-- The flag values after the encoder-decoder-only forcing of lines 230-237:
each flag survives only on an encoder-decoder model. -/
def forcedArgs {F : Type} (m : AttributionModel) (a : AttributeArgs F) : AttributeArgs F :=
  { a with attribute_target := a.attribute_target && m.is_encoder_decoder,
           generate_from_target_pfx := a.generate_from_target_pfx && m.is_encoder_decoder }

/-- The warnings emitted by the flag forcing of lines 230-237. -/
def flagWarnings {F : Type} (m : AttributionModel) (a : AttributeArgs F) : List String :=
  (if a.attribute_target && !m.is_encoder_decoder then
    ["attribute_target parameter is set to True, but will be ignored (not an encoder-decoder)."]
  else []) ++
  (if a.generate_from_target_pfx && !m.is_encoder_decoder then
    ["generate_from_target_prefix parameter is set to True, but will be ignored (not an encoder-decoder)."]
  else [])

/-- A concrete collaborator bundle used to evaluate the pipeline at concrete
inputs: step functions are represented by string tags, the dispatch payload
by a batch count. -/
def demoBackend : Backend String Nat :=
  { check_device := fun _ => true
    isnotebook := false
    step_scores_map := [("probability", "prob_fn"), ("entropy", "ent_fn")]
    generate := fun ts _ => .ok (ts.map (fun t => t ++ " gen"))
    encode_repr := fun _ => "ids"
    dispatch := fun _ => .ok [7]
    merge := fun l => l.length }

/-- A concrete decoder-only model state on device cpu with a bound
integrated-gradients method. -/
def demoDecModel : AttributionModel :=
  { is_encoder_decoder := false, _device := some "cpu",
    attribution_method := some "integrated_gradients",
    _default_attributed_fn_id := "probability" }

/-- A failing call for claim C1: a length mismatch raised after the device
override (two inputs, one target, device cuda requested). -/
def c1FailArgs : AttributeArgs String :=
  { input_texts := .list ["a", "b"], generated_texts := some (.list ["a x"]),
    device := some "cuda" }

/-- A successful call with a device override (one input, one matching
target, device cuda requested). -/
def c1OkArgs : AttributeArgs String :=
  { input_texts := .list ["a"], generated_texts := some (.list ["a x"]),
    device := some "cuda" }

/-- Claim-C2 witness call: a decoder-only constrained-decoding batch of two
examples with requested batch size 8. -/
def c2Args : AttributeArgs String :=
  { input_texts := .list ["a", "b"], generated_texts := some (.list ["a x", "b y"]),
    batch_size := some 8 }

/-- The `prepare_and_attribute` arguments observed for `c2Args`. -/
def c2Prep : PrepArgs String :=
  ⟨"integrated_gradients", ["a", "b"], ["a x", "b y"], some 1, none, none, true,
    false, false, false, [], false, "prob_fn"⟩

/-- Claim-C3 witness call: the constrained-decoding scenario of the spec,
with generation arguments supplied that must be ignored. -/
def c3Args : AttributeArgs String :=
  { input_texts := .str "how much is the cake?",
    generated_texts := some (.str "how much is the cake? 350 rubles"),
    generation_args := [("num_beams", "3")] }

/-- Claim-C4 witness call: both encoder-decoder-only flags requested on a
decoder-only model. -/
def c4Args : AttributeArgs String :=
  { input_texts := .list ["a"], attribute_target := true,
    generate_from_target_pfx := true }

/-- Claim-C5 witness call: a target not starting with its input. -/
def c5BadArgs : AttributeArgs String :=
  { input_texts := .list ["abc"], generated_texts := some (.list ["zzz"]),
    method := some "saliency", attributed_fn := .fnArg "prob_fn" }

/-- Claim-C5 witness call: a target correctly starting with its input. -/
def c5OkArgs : AttributeArgs String :=
  { input_texts := .list ["abc"], generated_texts := some (.list ["abc def"]),
    method := some "saliency", attributed_fn := .fnArg "prob_fn" }

/-- Claim-C6 witness call: an empty input-text collection. -/
def c6EmptyArgs : AttributeArgs String := { input_texts := .list [] }

/-- Claim-C6 witness call: one input, two targets. -/
def c6MismatchArgs : AttributeArgs String :=
  { input_texts := .list ["a"], generated_texts := some (.list ["x", "y"]) }

/-- A model with no bound attribution method. -/
def noMethodModel : AttributionModel :=
  { is_encoder_decoder := true, _device := some "cpu", attribution_method := none,
    _default_attributed_fn_id := "probability" }

/-- Claim-C8 witness call: no method requested. -/
def c8Args : AttributeArgs String := { input_texts := .list ["a"] }

theorem attribute_eq_withFlags {F β : Type} (B : Backend F β) (m : AttributionModel)
    (a : AttributeArgs F) (h : pyTruthy a.input_texts = true) :
    AttributionModel.attribute B m a =
      { attributeWithFlags B m (forcedArgs m a) with
        warnings := flagWarnings m a ++ (attributeWithFlags B m (forcedArgs m a)).warnings } := by
  cases hat : a.attribute_target <;> cases hgp : a.generate_from_target_pfx <;>
    cases hed : m.is_encoder_decoder <;>
      simp [AttributionModel.attribute, forcedArgs, flagWarnings, hat, hgp, hed, h]

theorem set_device_ok_iff {F β : Type} (B : Backend F β) (m m' : AttributionModel) (d : String) :
    set_device B m d = .ok m' ↔
      (B.check_device d = true ∧ m' = { m with _device := some d }) := by
  unfold set_device
  split <;> simp_all
  exact eq_comm

theorem finish_ok_device {F β : Type} (c : Ctx F β) (m2 : AttributionModel)
    (w : List String) (e : List MethodEffect)
    (g : List (List String × List (String × String))) (p : PrepArgs F) (pay : β)
    (info : AttrInfo) (out : FeatureAttributionOutput β)
    (htr : optStrTruthy c.a.device = true) (hor : optStrTruthy c.original_device = true)
    (hok : (attrFinishStage c m2 w e g p pay info).result = .ok out) :
    (attrFinishStage c m2 w e g p pay info).model._device = c.original_device := by
  unfold attrFinishStage at hok ⊢
  simp only [htr, hor, Bool.and_self, if_true] at hok ⊢
  rcases hsd : set_device c.B m2 (c.original_device.getD "") with e' | m3 <;>
    simp_all [set_device_ok_iff]
  cases hco : c.original_device with
  | none => rw [hco] at hor; simp [optStrTruthy] at hor
  | some s => simp [hco]

theorem dispatch_ok_device {F β : Type} (c : Ctx F β) (m2 : AttributionModel)
    (w : List String) (e : List MethodEffect)
    (g : List (List String × List (String × String)))
    (its gens : List String) (ga : List (String × String)) (hg : Bool)
    (am : String) (f : F) (out : FeatureAttributionOutput β)
    (htr : optStrTruthy c.a.device = true) (hor : optStrTruthy c.original_device = true)
    (hok : (attrDispatchStage c m2 w e g its gens ga hg am f).result = .ok out) :
    (attrDispatchStage c m2 w e g its gens ga hg am f).model._device = c.original_device := by
  unfold attrDispatchStage at hok ⊢
  revert hok
  split
  · intro hok; simp at hok
  · simp only []
    split
    · intro hok; simp at hok
    · intro hok
      exact finish_ok_device c m2 w e g _ _ _ out htr hor hok

theorem fn_ok_device {F β : Type} (c : Ctx F β) (m2 : AttributionModel)
    (w : List String) (e : List MethodEffect)
    (g : List (List String × List (String × String)))
    (its gens : List String) (ga : List (String × String)) (hg : Bool)
    (am : String) (out : FeatureAttributionOutput β)
    (htr : optStrTruthy c.a.device = true) (hor : optStrTruthy c.original_device = true)
    (hok : (attrFnStage c m2 w e g its gens ga hg am).result = .ok out) :
    (attrFnStage c m2 w e g its gens ga hg am).model._device = c.original_device := by
  unfold attrFnStage at hok ⊢
  revert hok
  split
  · intro hok; simp at hok
  · intro hok; exact dispatch_ok_device c m2 w e g its gens ga hg am _ out htr hor hok

theorem method_ok_device {F β : Type} (c : Ctx F β) (m1 : AttributionModel)
    (w : List String) (g : List (List String × List (String × String)))
    (its gens : List String) (ga : List (String × String)) (hg : Bool)
    (out : FeatureAttributionOutput β)
    (htr : optStrTruthy c.a.device = true) (hor : optStrTruthy c.original_device = true)
    (hok : (attrMethodStage c m1 w g its gens ga hg).result = .ok out) :
    (attrMethodStage c m1 w g its gens ga hg).model._device = c.original_device := by
  unfold attrMethodStage at hok ⊢
  revert hok
  split
  · intro hok; simp at hok
  · intro hok
    exact fn_ok_device c _ w _ g its gens ga hg _ out htr hor hok

theorem gen_ok_device {F β : Type} (c : Ctx F β) (m1 : AttributionModel)
    (its : List String) (genOpt : Option (List String))
    (out : FeatureAttributionOutput β)
    (htr : optStrTruthy c.a.device = true) (hor : optStrTruthy c.original_device = true)
    (hok : (attrGenStage c m1 its genOpt).result = .ok out) :
    (attrGenStage c m1 its genOpt).model._device = c.original_device := by
  unfold attrGenStage at hok ⊢
  revert hok
  simp only []
  split
  · intro hok; simp at hok
  · intro hok
    exact method_ok_device c m1 _ _ its _ _ _ out htr hor hok

theorem format_ok_device {F β : Type} (c : Ctx F β) (m1 : AttributionModel)
    (out : FeatureAttributionOutput β)
    (htr : optStrTruthy c.a.device = true) (hor : optStrTruthy c.original_device = true)
    (hok : (attrFormatStage c m1).result = .ok out) :
    (attrFormatStage c m1).model._device = c.original_device := by
  unfold attrFormatStage at hok ⊢
  revert hok
  split
  · intro hok; simp at hok
  · intro hok; exact gen_ok_device c m1 _ _ out htr hor hok

theorem awf_ok_device {F β : Type} (B : Backend F β) (m : AttributionModel)
    (a : AttributeArgs F) (out : FeatureAttributionOutput β)
    (htr : optStrTruthy a.device = true) (hor : optStrTruthy m._device = true)
    (hok : (attributeWithFlags B m a).result = .ok out) :
    (attributeWithFlags B m a).model._device = m._device := by
  unfold attributeWithFlags at hok ⊢
  revert hok
  split
  · intro hok; simp at hok
  · intro hok; exact format_ok_device ⟨B, a, m._device⟩ _ out htr hor hok

/-- Claim C1 (amended): for a call to `attribute` with a truthy `device` argument,
on a model whose pre-call device is truthy, that RETURNS NORMALLY, the
model's device after the call equals its pre-call device.  (The original
claim extends this to every failing exit path; `C1_counterexample` shows a
failing call after the override point leaves the overridden device in
place, because the restore at lines 311-312 only runs on the normal-return
path.) -/
theorem C1_device_restored_on_normal_return {F β : Type} (B : Backend F β)
    (m : AttributionModel) (a : AttributeArgs F) (out : FeatureAttributionOutput β)
    (htr : optStrTruthy a.device = true) (hor : optStrTruthy m._device = true)
    (hok : (AttributionModel.attribute B m a).result = .ok out) :
    (AttributionModel.attribute B m a).model._device = m._device := by
  by_cases hin : pyTruthy a.input_texts
  · rw [attribute_eq_withFlags B m a hin] at hok ⊢
    exact awf_ok_device B m (forcedArgs m a) out htr hor hok
  · unfold AttributionModel.attribute at hok
    rw [if_pos (by simp [hin])] at hok
    simp at hok

/-- Claim C1 witness: a concrete successful call with `device := cuda` on a model
on cpu; the call succeeds and the device afterwards is cpu again. -/
theorem C1_witness :
    (AttributionModel.attribute demoBackend demoDecModel c1OkArgs).result =
      .ok ⟨1, ⟨["a"], ["a x"], [], true, false⟩⟩ ∧
    (AttributionModel.attribute demoBackend demoDecModel c1OkArgs).model._device =
      demoDecModel._device := by
  have hok : (AttributionModel.attribute demoBackend demoDecModel c1OkArgs).result =
      .ok ⟨1, ⟨["a"], ["a x"], [], true, false⟩⟩ := by decide
  exact ⟨hok, C1_device_restored_on_normal_return demoBackend demoDecModel c1OkArgs
    ⟨1, ⟨["a"], ["a x"], [], true, false⟩⟩ rfl rfl hok⟩

/-- Claim C1 counterexample: the same model, but the call fails with a length
mismatch raised after the device override; afterwards the model's device is
the overridden cuda, not the pre-call cpu, so the device is NOT restored on
this failing exit path. -/
theorem C1_counterexample :
    c1FailArgs.device = some "cuda" ∧
    demoDecModel._device = some "cpu" ∧
    (AttributionModel.attribute demoBackend demoDecModel c1FailArgs).result =
      .error .lengthMismatch ∧
    (AttributionModel.attribute demoBackend demoDecModel c1FailArgs).model._device =
      some "cuda" ∧
    (AttributionModel.attribute demoBackend demoDecModel c1FailArgs).model._device ≠
      demoDecModel._device := by
  refine ⟨rfl, rfl, rfl, rfl, ?_⟩
  decide

/-- Claim C7 (confirmed): for every string attributed_fn argument that is
not a registered step-function key, get_attributed_fn raises an error naming
the unregistered key and never silently falls back to the default; a
registered string key resolves to the registry function, a callable passes
through unchanged, and a missing argument falls back to the default
attributed-function id. -/
theorem C7_attributed_fn_resolution {F : Type} (map : List (String × F)) (dflt : String) :
    (∀ s, List.lookup s map = none →
      get_attributed_fn map dflt (.strArg s) = .error (.valueError (unknownFunctionMsg s))) ∧
    (∀ s f, List.lookup s map = some f → get_attributed_fn map dflt (.strArg s) = .ok f) ∧
    (∀ f, get_attributed_fn map dflt (.fnArg f) = .ok f) ∧
    (get_attributed_fn map dflt .noneArg = resolveStepFn map dflt) := by
  refine ⟨?_, ?_, ?_, rfl⟩ <;> intros <;> simp [get_attributed_fn, resolveStepFn, *]

/-- Claim C7 witness: concrete resolutions against the demo registry. -/
theorem C7_witness :
    List.lookup "zzz" demoBackend.step_scores_map = none ∧
    get_attributed_fn demoBackend.step_scores_map "probability" (.strArg "zzz") =
      .error (.valueError (unknownFunctionMsg "zzz")) ∧
    get_attributed_fn demoBackend.step_scores_map "probability" (.strArg "entropy") =
      .ok "ent_fn" ∧
    get_attributed_fn demoBackend.step_scores_map "probability" .noneArg = .ok "prob_fn" := by
  have h := C7_attributed_fn_resolution demoBackend.step_scores_map "probability"
  refine ⟨by decide, h.1 "zzz" (by decide), h.2.1 "entropy" "ent_fn" (by decide), ?_⟩
  rw [h.2.2.2]; decide

/-- Claim C9 counterexample: a one-off override (method given, override
false) leaves the bound method field unchanged, but the previously bound
method IS unhooked (lines 128-129 run before the override check), refuting
the claim that it is not released. -/
theorem C9_counterexample :
    demoDecModel.attribution_method = some "integrated_gradients" ∧
    (get_attribution_method demoDecModel (some "saliency") false).1.attribution_method =
      some "integrated_gradients" ∧
    (get_attribution_method demoDecModel (some "saliency") false).2.1 =
      [MethodEffect.unhook "integrated_gradients", MethodEffect.load "saliency"] := by
  exact ⟨rfl, rfl, rfl⟩

/-- Claim C9 (amended): when a non-empty method name is given, the
previously bound method (if any) is always unhooked first and the requested
method loaded; the bound field is replaced exactly when override is set or
no method was bound, and otherwise remains unchanged while resolution
returns the one-off loaded method. -/
theorem C9_method_binding (m : AttributionModel) (name : String) (ov : Bool)
    (hname : name ≠ "") :
    (get_attribution_method m (some name) ov).2.1 =
      ((match m.attribution_method with
        | some prev => [MethodEffect.unhook prev]
        | none => []) ++ [MethodEffect.load name]) ∧
    (get_attribution_method m (some name) ov).1.attribution_method =
      (if ov || m.attribution_method.isNone then some (FeatureAttribution.load name)
       else m.attribution_method) ∧
    (get_attribution_method m (some name) ov).2.2 = .ok (FeatureAttribution.load name) := by
  have htr : optStrTruthy (some name) = true := by simp [optStrTruthy, hname]
  unfold get_attribution_method
  rw [htr]
  simp only [Bool.not_true, Bool.false_eq_true, if_false]
  split <;> simp_all

/-- Claim C9 witness: rebinding with override set replaces the bound
method, after unhooking the previous one. -/
theorem C9_witness :
    (get_attribution_method demoDecModel (some "saliency") true).1.attribution_method =
      some "saliency" ∧
    (get_attribution_method demoDecModel (some "saliency") true).2.1 =
      [MethodEffect.unhook "integrated_gradients", MethodEffect.load "saliency"] := by
  have h := C9_method_binding demoDecModel "saliency" true (by decide)
  exact ⟨by rw [h.2.1]; rfl, by rw [h.1]; rfl⟩

/-- Claim C10 (confirmed): direct assignment to default_attributed_fn_id
always raises (the validating setter is bound under the separate name
set_attributed_fn), assignment through set_attributed_fn with an
unregistered key raises a ValueError naming the key and leaves the field
unchanged, and a registered key updates the field. -/
theorem C10_default_attributed_fn_property {F : Type} (map : List (String × F))
    (m : AttributionModel) (v : String) :
    (assign_default_attributed_fn_id m v =
      .error (.attributeError "property default_attributed_fn_id has no setter")) ∧
    (List.lookup v map = none →
      set_attributed_fn map m v = .error (.valueError (unknownFunctionMsg v))) ∧
    (∀ f, List.lookup v map = some f →
      set_attributed_fn map m v = .ok { m with _default_attributed_fn_id := v }) := by
  refine ⟨rfl, ?_, ?_⟩ <;> intros <;> simp [set_attributed_fn, *]

/-- Claim C10 witness: concrete assignments against the demo registry. -/
theorem C10_witness :
    assign_default_attributed_fn_id demoDecModel "probability" =
      .error (.attributeError "property default_attributed_fn_id has no setter") ∧
    set_attributed_fn demoBackend.step_scores_map demoDecModel "zzz" =
      .error (.valueError (unknownFunctionMsg "zzz")) ∧
    set_attributed_fn demoBackend.step_scores_map demoDecModel "entropy" =
      .ok { demoDecModel with _default_attributed_fn_id := "entropy" } := by
  refine ⟨(C10_default_attributed_fn_property demoBackend.step_scores_map demoDecModel
      "probability").1,
    (C10_default_attributed_fn_property demoBackend.step_scores_map demoDecModel
      "zzz").2.1 (by decide),
    (C10_default_attributed_fn_property demoBackend.step_scores_map demoDecModel
      "entropy").2.2 "ent_fn" (by decide)⟩

theorem set_device_preserves {F β : Type} (B : Backend F β) (m m' : AttributionModel)
    (d : String) (h : set_device B m d = .ok m') :
    m'.is_encoder_decoder = m.is_encoder_decoder ∧
    m'.attribution_method = m.attribution_method ∧
    m'._default_attributed_fn_id = m._default_attributed_fn_id := by
  rw [set_device_ok_iff] at h
  rcases h with ⟨_, rfl⟩
  exact ⟨rfl, rfl, rfl⟩

theorem awf_ok_inv {F β : Type} (B : Backend F β) (m : AttributionModel)
    (a : AttributeArgs F) (out : FeatureAttributionOutput β)
    (hok : (attributeWithFlags B m a).result = .ok out) :
    ∃ m1, m1.is_encoder_decoder = m.is_encoder_decoder ∧
      m1.attribution_method = m.attribution_method ∧
      m1._default_attributed_fn_id = m._default_attributed_fn_id ∧
      (attrFormatStage ⟨B, a, m._device⟩ m1).result = .ok out := by
  unfold attributeWithFlags at hok
  revert hok
  split
  · intro hok; simp at hok
  · rename_i m1 heq
    intro hok
    have hpres : m1.is_encoder_decoder = m.is_encoder_decoder ∧
        m1.attribution_method = m.attribution_method ∧
        m1._default_attributed_fn_id = m._default_attributed_fn_id := by
      rcases hd : a.device with _ | d <;> rw [hd] at heq <;> simp at heq
      · exact heq ▸ ⟨rfl, rfl, rfl⟩
      · exact set_device_preserves B m m1 d heq
    exact ⟨m1, hpres.1, hpres.2.1, hpres.2.2, hok⟩

theorem format_ok_inv {F β : Type} (c : Ctx F β) (m1 : AttributionModel)
    (out : FeatureAttributionOutput β)
    (hok : (attrFormatStage c m1).result = .ok out) :
    ∃ its genOpt,
      format_input_texts c.a.input_texts c.a.generated_texts = .ok (its, genOpt) ∧
      (attrGenStage c m1 its genOpt).result = .ok out := by
  unfold attrFormatStage at hok
  revert hok
  split
  · intro hok; simp at hok
  · rename_i its genOpt heq
    intro hok
    exact ⟨its, genOpt, heq, hok⟩

theorem gen_ok_inv {F β : Type} (c : Ctx F β) (m1 : AttributionModel)
    (its : List String) (genOpt : Option (List String))
    (out : FeatureAttributionOutput β)
    (hok : (attrGenStage c m1 its genOpt).result = .ok out) :
    ∃ w g gens ga,
      (attrMethodStage c m1 w g its gens ga genOpt.isSome).result = .ok out := by
  unfold attrGenStage at hok
  revert hok
  simp only []
  split
  · intro hok; simp at hok
  · rename_i gens heq
    intro hok
    exact ⟨_, _, gens, _, hok⟩

theorem method_ok_inv {F β : Type} (c : Ctx F β) (m1 : AttributionModel)
    (w : List String) (g : List (List String × List (String × String)))
    (its gens : List String) (ga : List (String × String)) (hg : Bool)
    (out : FeatureAttributionOutput β)
    (hok : (attrMethodStage c m1 w g its gens ga hg).result = .ok out) :
    ∃ m2 effs am,
      get_attribution_method m1 c.a.method c.a.override_default_attribution =
        (m2, effs, .ok am) ∧
      (attrFnStage c m2 w effs g its gens ga hg am).result = .ok out := by
  unfold attrMethodStage at hok
  revert hok
  split
  · intro hok; simp at hok
  · rename_i m2 effs am heq
    intro hok
    exact ⟨m2, effs, am, heq, hok⟩

theorem fn_ok_inv {F β : Type} (c : Ctx F β) (m2 : AttributionModel)
    (w : List String) (e : List MethodEffect)
    (g : List (List String × List (String × String)))
    (its gens : List String) (ga : List (String × String)) (hg : Bool)
    (am : String) (out : FeatureAttributionOutput β)
    (hok : (attrFnStage c m2 w e g its gens ga hg am).result = .ok out) :
    ∃ f, get_attributed_fn c.B.step_scores_map m2._default_attributed_fn_id
        c.a.attributed_fn = .ok f ∧
      (attrDispatchStage c m2 w e g its gens ga hg am f).result = .ok out := by
  unfold attrFnStage at hok
  revert hok
  split
  · intro hok; simp at hok
  · rename_i f heq
    intro hok
    exact ⟨f, heq, hok⟩

theorem finish_ok_inv {F β : Type} (c : Ctx F β) (m2 : AttributionModel)
    (w : List String) (e : List MethodEffect)
    (g : List (List String × List (String × String))) (p : PrepArgs F) (pay : β)
    (info : AttrInfo) (out : FeatureAttributionOutput β)
    (hok : (attrFinishStage c m2 w e g p pay info).result = .ok out) :
    out.payload = pay ∧ out.info = info := by
  unfold attrFinishStage at hok
  revert hok
  simp only []
  split
  · intro hok; simp at hok
  · intro hok
    simp only [Except.ok.injEq] at hok
    rw [← hok]
    exact ⟨rfl, rfl⟩

theorem dispatch_ok_inv {F β : Type} (c : Ctx F β) (m2 : AttributionModel)
    (w : List String) (e : List MethodEffect)
    (g : List (List String × List (String × String)))
    (its gens : List String) (ga : List (String × String)) (hg : Bool)
    (am : String) (f : F) (out : FeatureAttributionOutput β)
    (hok : (attrDispatchStage c m2 w e g its gens ga hg am f).result = .ok out) :
    (!m2.is_encoder_decoder && !forcedGenOk its gens) = false ∧
    out.info = ⟨its, gens, ga, hg, c.a.generate_from_target_pfx⟩ := by
  unfold attrDispatchStage at hok
  revert hok
  split
  · intro hok; simp at hok
  · rename_i hcond
    simp only []
    split
    · intro hok; simp at hok
    · intro hok
      exact ⟨by simp at hcond ⊢; exact hcond, (finish_ok_inv _ _ _ _ _ _ _ _ _ hok).2⟩

theorem attribute_result_eq {F β : Type} (B : Backend F β) (m : AttributionModel)
    (a : AttributeArgs F) (h : pyTruthy a.input_texts = true) :
    (AttributionModel.attribute B m a).result =
      (attributeWithFlags B m (forcedArgs m a)).result := by
  rw [attribute_eq_withFlags B m a h]

theorem attribute_model_eq {F β : Type} (B : Backend F β) (m : AttributionModel)
    (a : AttributeArgs F) (h : pyTruthy a.input_texts = true) :
    (AttributionModel.attribute B m a).model =
      (attributeWithFlags B m (forcedArgs m a)).model := by
  rw [attribute_eq_withFlags B m a h]

theorem attribute_dispatched_eq {F β : Type} (B : Backend F β) (m : AttributionModel)
    (a : AttributeArgs F) (h : pyTruthy a.input_texts = true) :
    (AttributionModel.attribute B m a).dispatched =
      (attributeWithFlags B m (forcedArgs m a)).dispatched := by
  rw [attribute_eq_withFlags B m a h]

theorem attribute_gen_calls_eq {F β : Type} (B : Backend F β) (m : AttributionModel)
    (a : AttributeArgs F) (h : pyTruthy a.input_texts = true) :
    (AttributionModel.attribute B m a).gen_calls =
      (attributeWithFlags B m (forcedArgs m a)).gen_calls := by
  rw [attribute_eq_withFlags B m a h]

theorem attribute_warnings_eq {F β : Type} (B : Backend F β) (m : AttributionModel)
    (a : AttributeArgs F) (h : pyTruthy a.input_texts = true) :
    (AttributionModel.attribute B m a).warnings =
      flagWarnings m a ++ (attributeWithFlags B m (forcedArgs m a)).warnings := by
  rw [attribute_eq_withFlags B m a h]

/-- Claim C8 (confirmed): get_attribution_method raises
MissingAttributionMethodError exactly when no method name is given (Python
falsy) and no method is bound; whenever a name is given or a method is
bound, a method is resolved; and attribute never returns a result when
called with no method name on a model with no bound method. -/
theorem C8_missing_attribution_method {F β : Type} (B : Backend F β)
    (m : AttributionModel) (a : AttributeArgs F) :
    ((get_attribution_method m a.method a.override_default_attribution).2.2 =
        .error .missingAttributionMethod ↔
      (optStrTruthy a.method = false ∧ m.attribution_method = none)) ∧
    ((optStrTruthy a.method = true ∨ m.attribution_method ≠ none) →
      ∃ fa, (get_attribution_method m a.method a.override_default_attribution).2.2 =
        .ok fa) ∧
    (a.method = none → m.attribution_method = none →
      ∀ out, (AttributionModel.attribute B m a).result ≠ .ok out) := by
  refine ⟨?_, ?_, ?_⟩
  · unfold get_attribution_method
    split
    · cases hb : m.attribution_method <;> simp_all
    · split <;> split <;> simp_all
  · intro h
    unfold get_attribution_method
    split
    · rename_i hfal
      cases hb : m.attribution_method
      · exfalso
        rcases h with h1 | h2
        · simp_all
        · exact h2 hb
      · exact ⟨_, rfl⟩
    · split <;> split <;> exact ⟨_, rfl⟩
  · intro hme hbound out hok
    by_cases hin : pyTruthy a.input_texts
    · rw [attribute_result_eq B m a hin] at hok
      obtain ⟨m1, hed, ham, hdf, hfmt⟩ := awf_ok_inv B m (forcedArgs m a) out hok
      obtain ⟨its, genOpt, hfo, hgen⟩ := format_ok_inv _ _ _ hfmt
      obtain ⟨w, g, gens, ga, hms⟩ := gen_ok_inv _ _ _ _ _ hgen
      obtain ⟨m2, effs, am, heq, -⟩ := method_ok_inv _ _ _ _ _ _ _ _ _ hms
      have hb1 : m1.attribution_method = none := ham.trans hbound
      simp [get_attribution_method, forcedArgs, hme, hb1, optStrTruthy] at heq
    · unfold AttributionModel.attribute at hok
      rw [if_pos (by simp [hin])] at hok
      simp at hok

theorem format_input_texts_ok_facts (t : TextInput) (r : Option TextInput)
    (its : List String) (genOpt : Option (List String))
    (h : format_input_texts t r = .ok (its, genOpt)) :
    its = t.toList ∧ genOpt.isSome = r.isSome ∧
      (∀ gt, r = some gt → genOpt = some gt.toList) := by
  unfold format_input_texts at h
  rcases r with _ | gt
  · simp at h
    rcases h with ⟨h1, h2⟩
    subst h1
    simp [← h2]
  · simp only [] at h
    split at h
    · simp at h
      rcases h with ⟨h1, h2⟩
      subst h1
      constructor
      · rfl
      constructor
      · simp [← h2]
      · intro gt' hgt
        rw [← h2]
        simp at hgt
        rw [hgt]
    · simp at h

theorem get_attribution_method_preserves (m : AttributionModel) (me : Option String)
    (ov : Bool) :
    (get_attribution_method m me ov).1.is_encoder_decoder = m.is_encoder_decoder ∧
    (get_attribution_method m me ov).1._device = m._device ∧
    (get_attribution_method m me ov).1._default_attributed_fn_id =
      m._default_attributed_fn_id := by
  unfold get_attribution_method
  split
  · split <;> simp
  · split <;> split <;> simp

theorem finish_disp_inv {F β : Type} (c : Ctx F β) (m2 : AttributionModel)
    (w : List String) (e : List MethodEffect)
    (g : List (List String × List (String × String))) (p0 : PrepArgs F) (pay : β)
    (info : AttrInfo) (p : PrepArgs F)
    (hd : (attrFinishStage c m2 w e g p0 pay info).dispatched = some p) : p = p0 := by
  unfold attrFinishStage at hd
  revert hd
  simp only []
  split <;> intro hd <;> simp at hd <;> exact hd.symm

theorem dispatch_disp_inv {F β : Type} (c : Ctx F β) (m2 : AttributionModel)
    (w : List String) (e : List MethodEffect)
    (g : List (List String × List (String × String)))
    (its gens : List String) (ga : List (String × String)) (hg : Bool)
    (am : String) (f : F) (p : PrepArgs F)
    (hd : (attrDispatchStage c m2 w e g its gens ga hg am f).dispatched = some p) :
    p = mkPrepArgs c m2 its gens hg am f := by
  unfold attrDispatchStage at hd
  revert hd
  split
  · intro hd; simp at hd
  · simp only []
    split
    · intro hd; simp at hd; exact hd.symm
    · intro hd; exact finish_disp_inv _ _ _ _ _ _ _ _ _ hd

theorem fn_disp_inv {F β : Type} (c : Ctx F β) (m2 : AttributionModel)
    (w : List String) (e : List MethodEffect)
    (g : List (List String × List (String × String)))
    (its gens : List String) (ga : List (String × String)) (hg : Bool)
    (am : String) (p : PrepArgs F)
    (hd : (attrFnStage c m2 w e g its gens ga hg am).dispatched = some p) :
    ∃ f, (attrDispatchStage c m2 w e g its gens ga hg am f).dispatched = some p := by
  unfold attrFnStage at hd
  revert hd
  split
  · intro hd; simp at hd
  · rename_i f heq
    intro hd
    exact ⟨f, hd⟩

theorem method_disp_inv {F β : Type} (c : Ctx F β) (m1 : AttributionModel)
    (w : List String) (g : List (List String × List (String × String)))
    (its gens : List String) (ga : List (String × String)) (hg : Bool) (p : PrepArgs F)
    (hd : (attrMethodStage c m1 w g its gens ga hg).dispatched = some p) :
    ∃ m2 effs am,
      get_attribution_method m1 c.a.method c.a.override_default_attribution =
        (m2, effs, .ok am) ∧
      (attrFnStage c m2 w effs g its gens ga hg am).dispatched = some p := by
  unfold attrMethodStage at hd
  revert hd
  split
  · intro hd; simp at hd
  · rename_i m2 effs am heq
    intro hd
    exact ⟨m2, effs, am, heq, hd⟩

theorem gen_disp_inv {F β : Type} (c : Ctx F β) (m1 : AttributionModel)
    (its : List String) (genOpt : Option (List String)) (p : PrepArgs F)
    (hd : (attrGenStage c m1 its genOpt).dispatched = some p) :
    ∃ w g gens ga,
      (attrMethodStage c m1 w g its gens ga genOpt.isSome).dispatched = some p := by
  unfold attrGenStage at hd
  revert hd
  simp only []
  split
  · intro hd; simp at hd
  · rename_i gens heq
    intro hd
    exact ⟨_, _, gens, _, hd⟩

theorem format_disp_inv {F β : Type} (c : Ctx F β) (m1 : AttributionModel) (p : PrepArgs F)
    (hd : (attrFormatStage c m1).dispatched = some p) :
    ∃ its genOpt,
      format_input_texts c.a.input_texts c.a.generated_texts = .ok (its, genOpt) ∧
      (attrGenStage c m1 its genOpt).dispatched = some p := by
  unfold attrFormatStage at hd
  revert hd
  split
  · intro hd; simp at hd
  · rename_i its genOpt heq
    intro hd
    exact ⟨its, genOpt, heq, hd⟩

theorem awf_disp_inv {F β : Type} (B : Backend F β) (m : AttributionModel)
    (a : AttributeArgs F) (p : PrepArgs F)
    (hd : (attributeWithFlags B m a).dispatched = some p) :
    ∃ m1, m1.is_encoder_decoder = m.is_encoder_decoder ∧
      m1.attribution_method = m.attribution_method ∧
      m1._default_attributed_fn_id = m._default_attributed_fn_id ∧
      (attrFormatStage ⟨B, a, m._device⟩ m1).dispatched = some p := by
  unfold attributeWithFlags at hd
  revert hd
  split
  · intro hd; simp at hd
  · rename_i m1 heq
    intro hd
    have hpres : m1.is_encoder_decoder = m.is_encoder_decoder ∧
        m1.attribution_method = m.attribution_method ∧
        m1._default_attributed_fn_id = m._default_attributed_fn_id := by
      rcases hdv : a.device with _ | d <;> rw [hdv] at heq <;> simp at heq
      · exact heq ▸ ⟨rfl, rfl, rfl⟩
      · exact set_device_preserves B m m1 d heq
    exact ⟨m1, hpres.1, hpres.2.1, hpres.2.2, hd⟩

theorem computeBatchSize_eq {F β : Type} (c : Ctx F β) (m2 : AttributionModel)
    (hg : Bool) (n : Nat) (am : String) :
    computeBatchSize c m2 hg n am =
      if (!m2.is_encoder_decoder && hg && decide (n > 1))
          || (!m2.is_encoder_decoder && decide (n > 1)
              && (c.a.attr_pos_start.isSome || c.a.attr_pos_end.isSome))
          || (am == "lime")
      then some 1 else c.a.batch_size := by
  unfold computeBatchSize
  cases h1 : (!m2.is_encoder_decoder && hg && decide (n > 1)) <;>
    cases h2 : (!m2.is_encoder_decoder && decide (n > 1)
        && (c.a.attr_pos_start.isSome || c.a.attr_pos_end.isSome)) <;>
      cases h3 : (am == "lime") <;> simp [h1, h2, h3]

/-- Claim C2 (confirmed): the batch size handed to prepare_and_attribute
is forced to 1 exactly when (a) the model is not encoder-decoder, targets
were supplied, and there is more than one input; or (b) the model is not
encoder-decoder, there is more than one input, and an attribution-position
bound is set; or (c) the resolved method name is lime; otherwise the
caller-requested batch size is passed through unchanged. -/
theorem C2_batch_size_forcing {F β : Type} (B : Backend F β) (m : AttributionModel)
    (a : AttributeArgs F) (p : PrepArgs F)
    (hdisp : (AttributionModel.attribute B m a).dispatched = some p) :
    p.batch_size =
      if (!m.is_encoder_decoder && a.generated_texts.isSome
            && decide (a.input_texts.toList.length > 1))
          || (!m.is_encoder_decoder && decide (a.input_texts.toList.length > 1)
            && (a.attr_pos_start.isSome || a.attr_pos_end.isSome))
          || (p.method == "lime")
      then some 1 else a.batch_size := by
  by_cases hin : pyTruthy a.input_texts
  · rw [attribute_dispatched_eq B m a hin] at hdisp
    obtain ⟨m1, hed1, -, -, hd1⟩ := awf_disp_inv B m (forcedArgs m a) p hdisp
    obtain ⟨its, genOpt, hfo, hd2⟩ := format_disp_inv _ _ _ hd1
    obtain ⟨w, g, gens, ga, hd3⟩ := gen_disp_inv _ _ _ _ _ hd2
    obtain ⟨m2, effs, am, heq, hd4⟩ := method_disp_inv _ _ _ _ _ _ _ _ _ hd3
    obtain ⟨f, hd5⟩ := fn_disp_inv _ _ _ _ _ _ _ _ _ _ _ hd4
    have hp := dispatch_disp_inv _ _ _ _ _ _ _ _ _ _ _ _ hd5
    obtain ⟨hits, hgs, -⟩ := format_input_texts_ok_facts _ _ _ _ hfo
    have hm2 : m2.is_encoder_decoder = m.is_encoder_decoder := by
      have hpre := (get_attribution_method_preserves m1 (forcedArgs m a).method
        (forcedArgs m a).override_default_attribution).1
      rw [heq] at hpre
      exact hpre.trans hed1
    subst hp
    simp only [mkPrepArgs]
    rw [computeBatchSize_eq, hm2, hgs, hits]
    rfl
  · unfold AttributionModel.attribute at hdisp
    rw [if_pos (by simp [hin])] at hdisp
    simp at hdisp

theorem finish_warnings {F β : Type} (c : Ctx F β) (m2 : AttributionModel)
    (w : List String) (e : List MethodEffect)
    (g : List (List String × List (String × String))) (p : PrepArgs F) (pay : β)
    (info : AttrInfo) :
    (attrFinishStage c m2 w e g p pay info).warnings = w ∧
    (attrFinishStage c m2 w e g p pay info).gen_calls = g := by
  unfold attrFinishStage
  simp only []
  split <;> exact ⟨rfl, rfl⟩

theorem dispatch_warnings {F β : Type} (c : Ctx F β) (m2 : AttributionModel)
    (w : List String) (e : List MethodEffect)
    (g : List (List String × List (String × String)))
    (its gens : List String) (ga : List (String × String)) (hg : Bool)
    (am : String) (f : F) :
    (attrDispatchStage c m2 w e g its gens ga hg am f).warnings = w ∧
    (attrDispatchStage c m2 w e g its gens ga hg am f).gen_calls = g := by
  unfold attrDispatchStage
  split
  · exact ⟨rfl, rfl⟩
  · simp only []
    split
    · exact ⟨rfl, rfl⟩
    · exact finish_warnings _ _ _ _ _ _ _ _

theorem fn_warnings {F β : Type} (c : Ctx F β) (m2 : AttributionModel)
    (w : List String) (e : List MethodEffect)
    (g : List (List String × List (String × String)))
    (its gens : List String) (ga : List (String × String)) (hg : Bool) (am : String) :
    (attrFnStage c m2 w e g its gens ga hg am).warnings = w ∧
    (attrFnStage c m2 w e g its gens ga hg am).gen_calls = g := by
  unfold attrFnStage
  split
  · exact ⟨rfl, rfl⟩
  · exact dispatch_warnings _ _ _ _ _ _ _ _ _ _ _

theorem method_warnings {F β : Type} (c : Ctx F β) (m1 : AttributionModel)
    (w : List String) (g : List (List String × List (String × String)))
    (its gens : List String) (ga : List (String × String)) (hg : Bool) :
    (attrMethodStage c m1 w g its gens ga hg).warnings = w ∧
    (attrMethodStage c m1 w g its gens ga hg).gen_calls = g := by
  unfold attrMethodStage
  split
  · exact ⟨rfl, rfl⟩
  · exact fn_warnings _ _ _ _ _ _ _ _ _ _

theorem gen_constrained_eq {F β : Type} (c : Ctx F β) (m1 : AttributionModel)
    (its gens0 : List String) (genOpt : Option (List String))
    (hsome : genOpt = some gens0) (hpfx : c.a.generate_from_target_pfx = false) :
    attrGenStage c m1 its genOpt =
      attrMethodStage c m1
        (if c.a.generation_args.isEmpty then []
         else ["Generation arguments are provided, but will be ignored (constrained decoding)."])
        [] its gens0 c.a.generation_args true := by
  subst hsome
  unfold attrGenStage
  simp [hpfx]

theorem awf_ok_eq {F β : Type} (B : Backend F β) (m : AttributionModel)
    (a : AttributeArgs F) (out : FeatureAttributionOutput β)
    (hok : (attributeWithFlags B m a).result = .ok out) :
    ∃ m1, m1.is_encoder_decoder = m.is_encoder_decoder ∧
      m1.attribution_method = m.attribution_method ∧
      m1._default_attributed_fn_id = m._default_attributed_fn_id ∧
      attributeWithFlags B m a = attrFormatStage ⟨B, a, m._device⟩ m1 := by
  unfold attributeWithFlags at hok ⊢
  revert hok
  split
  · intro hok; simp at hok
  · rename_i m1 heq
    intro hok
    have hpres : m1.is_encoder_decoder = m.is_encoder_decoder ∧
        m1.attribution_method = m.attribution_method ∧
        m1._default_attributed_fn_id = m._default_attributed_fn_id := by
      rcases hdv : a.device with _ | d <;> rw [hdv] at heq <;> simp at heq
      · exact heq ▸ ⟨rfl, rfl, rfl⟩
      · exact set_device_preserves B m m1 d heq
    exact ⟨m1, hpres.1, hpres.2.1, hpres.2.2, rfl⟩

theorem format_ok_eq {F β : Type} (c : Ctx F β) (m1 : AttributionModel)
    (out : FeatureAttributionOutput β)
    (hok : (attrFormatStage c m1).result = .ok out) :
    ∃ its genOpt,
      format_input_texts c.a.input_texts c.a.generated_texts = .ok (its, genOpt) ∧
      attrFormatStage c m1 = attrGenStage c m1 its genOpt := by
  unfold attrFormatStage at hok ⊢
  revert hok
  split
  · intro hok; simp at hok
  · rename_i its genOpt heq
    intro hok
    exact ⟨its, genOpt, heq, rfl⟩

theorem awf_gen_calls_constrained {F β : Type} (B : Backend F β) (m : AttributionModel)
    (a : AttributeArgs F) (gt : TextInput)
    (hgt : a.generated_texts = some gt) (hpfx : a.generate_from_target_pfx = false) :
    (attributeWithFlags B m a).gen_calls = [] := by
  unfold attributeWithFlags
  split
  · rfl
  · rename_i m1 heq
    unfold attrFormatStage
    simp only []
    split
    · rfl
    · rename_i its genOpt hfo
      obtain ⟨-, -, h3⟩ := format_input_texts_ok_facts _ _ _ _ hfo
      have hsome := h3 gt hgt
      rw [gen_constrained_eq _ _ _ gt.toList _ hsome hpfx]
      exact (method_warnings _ _ _ _ _ _ _ _).2

/-- Claim C3 (confirmed): with supplied target texts and
generate_from_target_prefix left False, the generation backend is never
invoked, the output metadata marks constrained_decoding true with
generated_texts equal to the supplied targets normalized to a list, and
non-empty generation arguments are ignored with a warning rather than an
error. -/
theorem C3_constrained_decoding_metadata {F β : Type} (B : Backend F β)
    (m : AttributionModel) (a : AttributeArgs F) (gt : TextInput)
    (hgt : a.generated_texts = some gt) (hpfx : a.generate_from_target_pfx = false) :
    (AttributionModel.attribute B m a).gen_calls = [] ∧
    ∀ out, (AttributionModel.attribute B m a).result = .ok out →
      (out.info.constrained_decoding = true ∧
       out.info.generated_texts = gt.toList ∧
       out.info.generation_args = a.generation_args ∧
       (a.generation_args ≠ [] →
         "Generation arguments are provided, but will be ignored (constrained decoding)." ∈
           (AttributionModel.attribute B m a).warnings)) := by
  have hpfx' : (forcedArgs m a).generate_from_target_pfx = false := by
    simp [forcedArgs, hpfx]
  constructor
  · by_cases hin : pyTruthy a.input_texts
    · rw [attribute_gen_calls_eq B m a hin]
      exact awf_gen_calls_constrained B m (forcedArgs m a) gt hgt hpfx'
    · unfold AttributionModel.attribute
      rw [if_pos (by simp [hin])]
  · intro out hok
    by_cases hin : pyTruthy a.input_texts
    · rw [attribute_result_eq B m a hin] at hok
      obtain ⟨m1, -, -, -, heq1⟩ := awf_ok_eq B m (forcedArgs m a) out hok
      rw [heq1] at hok
      obtain ⟨its, genOpt, hfo, heq2⟩ := format_ok_eq _ _ _ hok
      rw [heq2] at hok
      obtain ⟨hits, -, h3⟩ := format_input_texts_ok_facts _ _ _ _ hfo
      have hsome := h3 gt hgt
      rw [gen_constrained_eq _ _ _ gt.toList _ hsome hpfx'] at hok
      obtain ⟨m2, effs, am, hgam, hok2⟩ := method_ok_inv _ _ _ _ _ _ _ _ _ hok
      obtain ⟨f, hfn, hok3⟩ := fn_ok_inv _ _ _ _ _ _ _ _ _ _ _ hok2
      obtain ⟨-, hinfo⟩ := dispatch_ok_inv _ _ _ _ _ _ _ _ _ _ _ _ hok3
      refine ⟨by rw [hinfo], by rw [hinfo], by rw [hinfo]; rfl, ?_⟩
      intro hne
      rw [attribute_warnings_eq B m a hin, heq1, heq2,
        gen_constrained_eq _ _ _ gt.toList _ hsome hpfx',
        (method_warnings _ _ _ _ _ _ _ _).1]
      have hga : (forcedArgs m a).generation_args = a.generation_args := rfl
      rw [hga]
      cases hgl : a.generation_args with
      | nil => exact absurd hgl hne
      | cons x xs => simp
    · unfold AttributionModel.attribute at hok
      rw [if_pos (by simp [hin])] at hok
      simp at hok

/-- Claim C4 (confirmed): on a non-encoder-decoder model,
attribute_target and generate_from_target_prefix are silently disabled with
warnings: the call behaves exactly as the flags-off call, the dispatched
attribute_target flag is false, and the output metadata records
generate_from_target_prefix false. -/
theorem C4_flags_disabled_on_decoder_only {F β : Type} (B : Backend F β)
    (m : AttributionModel) (a : AttributeArgs F)
    (hed : m.is_encoder_decoder = false) :
    (AttributionModel.attribute B m a).result =
      (AttributionModel.attribute B m
        { a with attribute_target := false, generate_from_target_pfx := false }).result ∧
    (AttributionModel.attribute B m a).dispatched =
      (AttributionModel.attribute B m
        { a with attribute_target := false, generate_from_target_pfx := false }).dispatched ∧
    (∀ p, (AttributionModel.attribute B m a).dispatched = some p →
      p.attribute_target = false) ∧
    (∀ out, (AttributionModel.attribute B m a).result = .ok out →
      out.info.generate_from_target_pfx = false) ∧
    (pyTruthy a.input_texts = true → a.attribute_target = true →
      "attribute_target parameter is set to True, but will be ignored (not an encoder-decoder)." ∈
        (AttributionModel.attribute B m a).warnings) ∧
    (pyTruthy a.input_texts = true → a.generate_from_target_pfx = true →
      "generate_from_target_prefix parameter is set to True, but will be ignored (not an encoder-decoder)." ∈
        (AttributionModel.attribute B m a).warnings) := by
  have hfa : forcedArgs m a =
      forcedArgs m { a with attribute_target := false, generate_from_target_pfx := false } := by
    cases a
    simp [forcedArgs, hed]
  refine ⟨?_, ?_, ?_, ?_, ?_, ?_⟩
  · by_cases hin : pyTruthy a.input_texts
    · refine (attribute_result_eq B m a hin).trans ?_
      rw [hfa]
      exact (attribute_result_eq B m
        { a with attribute_target := false, generate_from_target_pfx := false } hin).symm
    · unfold AttributionModel.attribute
      rw [if_pos (by simp [hin]), if_pos (by simp [hin])]
  · by_cases hin : pyTruthy a.input_texts
    · refine (attribute_dispatched_eq B m a hin).trans ?_
      rw [hfa]
      exact (attribute_dispatched_eq B m
        { a with attribute_target := false, generate_from_target_pfx := false } hin).symm
    · unfold AttributionModel.attribute
      rw [if_pos (by simp [hin]), if_pos (by simp [hin])]
  · intro p hd
    by_cases hin : pyTruthy a.input_texts
    · rw [attribute_dispatched_eq B m a hin] at hd
      obtain ⟨m1, -, -, -, hd1⟩ := awf_disp_inv B m (forcedArgs m a) p hd
      obtain ⟨its, genOpt, hfo, hd2⟩ := format_disp_inv _ _ _ hd1
      obtain ⟨w, g, gens, ga, hd3⟩ := gen_disp_inv _ _ _ _ _ hd2
      obtain ⟨m2, effs, am, heq, hd4⟩ := method_disp_inv _ _ _ _ _ _ _ _ _ hd3
      obtain ⟨f, hd5⟩ := fn_disp_inv _ _ _ _ _ _ _ _ _ _ _ hd4
      have hp := dispatch_disp_inv _ _ _ _ _ _ _ _ _ _ _ _ hd5
      subst hp
      simp [mkPrepArgs, forcedArgs, hed]
    · unfold AttributionModel.attribute at hd
      rw [if_pos (by simp [hin])] at hd
      simp at hd
  · intro out hok
    by_cases hin : pyTruthy a.input_texts
    · rw [attribute_result_eq B m a hin] at hok
      obtain ⟨m1, -, -, -, heq1⟩ := awf_ok_eq B m (forcedArgs m a) out hok
      rw [heq1] at hok
      obtain ⟨its, genOpt, hfo, heq2⟩ := format_ok_eq _ _ _ hok
      rw [heq2] at hok
      obtain ⟨w, g, gens, ga, hok2⟩ := gen_ok_inv _ _ _ _ _ hok
      obtain ⟨m2, effs, am, hgam, hok3⟩ := method_ok_inv _ _ _ _ _ _ _ _ _ hok2
      obtain ⟨f, hfn, hok4⟩ := fn_ok_inv _ _ _ _ _ _ _ _ _ _ _ hok3
      obtain ⟨-, hinfo⟩ := dispatch_ok_inv _ _ _ _ _ _ _ _ _ _ _ _ hok4
      rw [hinfo]
      simp [forcedArgs, hed]
    · unfold AttributionModel.attribute at hok
      rw [if_pos (by simp [hin])] at hok
      simp at hok
  · intro hin hat
    rw [attribute_warnings_eq B m a hin]
    simp [flagWarnings, hat, hed]
  · intro hin hgp
    rw [attribute_warnings_eq B m a hin]
    simp [flagWarnings, hgp, hed]

theorem awf_device_none {F β : Type} (B : Backend F β) (m : AttributionModel)
    (a : AttributeArgs F) (hdev : a.device = none) :
    attributeWithFlags B m a = attrFormatStage ⟨B, a, m._device⟩ m := by
  simp [attributeWithFlags, hdev]

theorem format_eq_ok (t : TextInput) (r : Option TextInput) (gt : TextInput)
    (hgt : r = some gt) (hlen : t.toList.length = gt.toList.length) :
    format_input_texts t r = .ok (t.toList, some gt.toList) := by
  subst hgt
  unfold format_input_texts
  simp [hlen]

theorem formatStage_rw {F β : Type} (c : Ctx F β) (m1 : AttributionModel)
    (its : List String) (genOpt : Option (List String))
    (h : format_input_texts c.a.input_texts c.a.generated_texts = .ok (its, genOpt)) :
    attrFormatStage c m1 = attrGenStage c m1 its genOpt := by
  unfold attrFormatStage
  rw [h]

theorem methodStage_rw {F β : Type} (c : Ctx F β) (m1 m2 : AttributionModel)
    (w : List String) (g : List (List String × List (String × String)))
    (its gens : List String) (ga : List (String × String)) (hg : Bool)
    (effs : List MethodEffect) (am : String)
    (h : get_attribution_method m1 c.a.method c.a.override_default_attribution =
      (m2, effs, .ok am)) :
    attrMethodStage c m1 w g its gens ga hg =
      attrFnStage c m2 w effs g its gens ga hg am := by
  unfold attrMethodStage
  rw [h]

theorem fnStage_rw {F β : Type} (c : Ctx F β) (m2 : AttributionModel)
    (w : List String) (e : List MethodEffect)
    (g : List (List String × List (String × String)))
    (its gens : List String) (ga : List (String × String)) (hg : Bool)
    (am : String) (f : F)
    (h : get_attributed_fn c.B.step_scores_map m2._default_attributed_fn_id
      c.a.attributed_fn = .ok f) :
    attrFnStage c m2 w e g its gens ga hg am =
      attrDispatchStage c m2 w e g its gens ga hg am f := by
  unfold attrFnStage
  rw [h]

theorem gam_ok_of_truthy (m : AttributionModel) (me : Option String) (ov : Bool)
    (h : optStrTruthy me = true) :
    ∃ m2 effs, get_attribution_method m me ov =
      (m2, effs, .ok (FeatureAttribution.load (me.getD ""))) ∧
      m2.is_encoder_decoder = m.is_encoder_decoder := by
  unfold get_attribution_method
  split
  · rename_i hfal
    rw [h] at hfal
    simp at hfal
  · split <;> (simp only []; split <;> exact ⟨_, _, rfl, rfl⟩)

theorem finish_dispatched {F β : Type} (c : Ctx F β) (m2 : AttributionModel)
    (w : List String) (e : List MethodEffect)
    (g : List (List String × List (String × String))) (p : PrepArgs F) (pay : β)
    (info : AttrInfo) :
    (attrFinishStage c m2 w e g p pay info).dispatched = some p := by
  unfold attrFinishStage
  simp only []
  split <;> rfl

theorem dispatch_assert_eq {F β : Type} (c : Ctx F β) (m2 : AttributionModel)
    (w : List String) (e : List MethodEffect)
    (g : List (List String × List (String × String)))
    (its gens : List String) (ga : List (String × String)) (hg : Bool)
    (am : String) (f : F)
    (hcond : (!m2.is_encoder_decoder && !(forcedGenOk its gens)) = true) :
    attrDispatchStage c m2 w e g its gens ga hg am f =
      ⟨m2, w, e, g, none,
        .error (.assertionError
          "Forced generations with decoder-only models must start with the input texts.")⟩ := by
  unfold attrDispatchStage
  rw [if_pos hcond]

theorem dispatch_noassert_disp {F β : Type} (c : Ctx F β) (m2 : AttributionModel)
    (w : List String) (e : List MethodEffect)
    (g : List (List String × List (String × String)))
    (its gens : List String) (ga : List (String × String)) (hg : Bool)
    (am : String) (f : F)
    (hcond : (!m2.is_encoder_decoder && !(forcedGenOk its gens)) = false) :
    (attrDispatchStage c m2 w e g its gens ga hg am f).dispatched =
      some (mkPrepArgs c m2 its gens hg am f) := by
  unfold attrDispatchStage
  rw [if_neg (by simp [hcond])]
  simp only []
  split
  · rfl
  · exact finish_dispatched _ _ _ _ _ _ _ _

/-- Claim C5 (confirmed): on a decoder-only model with supplied targets,
if some target does not start with its paired input the call fails with the
forced-generation assertion before any dispatch and returns no result; if
every target starts with its input the check passes and dispatch is
reached. -/
theorem C5_decoder_only_prefix_precondition {F β : Type} (B : Backend F β)
    (m : AttributionModel) (a : AttributeArgs F) (gt : TextInput) (f : F)
    (hed : m.is_encoder_decoder = false)
    (hin : pyTruthy a.input_texts = true)
    (hdev : a.device = none)
    (hgt : a.generated_texts = some gt)
    (hlen : a.input_texts.toList.length = gt.toList.length)
    (hmeth : optStrTruthy a.method = true)
    (hfn : a.attributed_fn = .fnArg f) :
    (forcedGenOk a.input_texts.toList gt.toList = false →
      (AttributionModel.attribute B m a).result =
        .error (.assertionError
          "Forced generations with decoder-only models must start with the input texts.") ∧
      (AttributionModel.attribute B m a).dispatched = none) ∧
    (forcedGenOk a.input_texts.toList gt.toList = true →
      (AttributionModel.attribute B m a).dispatched.isSome = true) := by
  have h1 : attributeWithFlags B m (forcedArgs m a) =
      attrFormatStage ⟨B, forcedArgs m a, m._device⟩ m :=
    awf_device_none B m (forcedArgs m a) hdev
  have hfo : format_input_texts ((⟨B, forcedArgs m a, m._device⟩ : Ctx F β)).a.input_texts
      ((⟨B, forcedArgs m a, m._device⟩ : Ctx F β)).a.generated_texts =
      .ok (a.input_texts.toList, some gt.toList) :=
    format_eq_ok a.input_texts a.generated_texts gt hgt hlen
  have h2 := formatStage_rw ⟨B, forcedArgs m a, m._device⟩ m
    a.input_texts.toList (some gt.toList) hfo
  have hpfx' : ((⟨B, forcedArgs m a, m._device⟩ : Ctx F β)).a.generate_from_target_pfx =
      false := by
    simp [forcedArgs, hed]
  have h3 := gen_constrained_eq ⟨B, forcedArgs m a, m._device⟩ m
    a.input_texts.toList gt.toList (some gt.toList) rfl hpfx'
  obtain ⟨m2, effs, hgam, hm2⟩ := gam_ok_of_truthy m (forcedArgs m a).method
    (forcedArgs m a).override_default_attribution hmeth
  have h4 := methodStage_rw ⟨B, forcedArgs m a, m._device⟩ m m2
    (if (forcedArgs m a).generation_args.isEmpty then []
     else ["Generation arguments are provided, but will be ignored (constrained decoding)."])
    [] a.input_texts.toList gt.toList (forcedArgs m a).generation_args true effs
    (FeatureAttribution.load (a.method.getD "")) hgam
  have hfnok : get_attributed_fn
      ((⟨B, forcedArgs m a, m._device⟩ : Ctx F β)).B.step_scores_map
      m2._default_attributed_fn_id
      ((⟨B, forcedArgs m a, m._device⟩ : Ctx F β)).a.attributed_fn = .ok f := by
    rw [show ((⟨B, forcedArgs m a, m._device⟩ : Ctx F β)).a.attributed_fn =
      AttributedFnArg.fnArg f from hfn]
    rfl
  have h5 := fnStage_rw ⟨B, forcedArgs m a, m._device⟩ m2
    (if (forcedArgs m a).generation_args.isEmpty then []
     else ["Generation arguments are provided, but will be ignored (constrained decoding)."])
    effs [] a.input_texts.toList gt.toList (forcedArgs m a).generation_args true
    (FeatureAttribution.load (a.method.getD "")) f hfnok
  have hres : (AttributionModel.attribute B m a).result =
      (attrDispatchStage ⟨B, forcedArgs m a, m._device⟩ m2
        (if (forcedArgs m a).generation_args.isEmpty then []
         else ["Generation arguments are provided, but will be ignored (constrained decoding)."])
        effs [] a.input_texts.toList gt.toList (forcedArgs m a).generation_args true
        (FeatureAttribution.load (a.method.getD "")) f).result := by
    rw [attribute_result_eq B m a hin, h1, h2, h3, h4, h5]
  have hdsp : (AttributionModel.attribute B m a).dispatched =
      (attrDispatchStage ⟨B, forcedArgs m a, m._device⟩ m2
        (if (forcedArgs m a).generation_args.isEmpty then []
         else ["Generation arguments are provided, but will be ignored (constrained decoding)."])
        effs [] a.input_texts.toList gt.toList (forcedArgs m a).generation_args true
        (FeatureAttribution.load (a.method.getD "")) f).dispatched := by
    rw [attribute_dispatched_eq B m a hin, h1, h2, h3, h4, h5]
  constructor
  · intro hbad
    have hcond : (!m2.is_encoder_decoder
        && !(forcedGenOk a.input_texts.toList gt.toList)) = true := by
      rw [hm2, hed, hbad]
      rfl
    rw [dispatch_assert_eq _ _ _ _ _ _ _ _ _ _ _ hcond] at hres hdsp
    exact ⟨hres, hdsp⟩
  · intro hgood
    have hcond : (!m2.is_encoder_decoder
        && !(forcedGenOk a.input_texts.toList gt.toList)) = false := by
      rw [hm2, hed, hgood]
      rfl
    rw [hdsp, dispatch_noassert_disp _ _ _ _ _ _ _ _ _ _ _ hcond]
    rfl

theorem format_eq_err (t : TextInput) (r : Option TextInput) (gt : TextInput)
    (hgt : r = some gt) (hne : t.toList.length ≠ gt.toList.length) :
    format_input_texts t r = .error .lengthMismatch := by
  subst hgt
  unfold format_input_texts
  simp [hne]

theorem awf_device_ok {F β : Type} (B : Backend F β) (m : AttributionModel)
    (a : AttributeArgs F)
    (hdev : ∀ d, a.device = some d → B.check_device d = true) :
    ∃ m1, attributeWithFlags B m a = attrFormatStage ⟨B, a, m._device⟩ m1 := by
  rcases hd : a.device with _ | d
  · exact ⟨m, awf_device_none B m a hd⟩
  · have hc := hdev d hd
    refine ⟨{ m with _device := some d }, ?_⟩
    unfold attributeWithFlags
    rw [hd]
    simp [set_device, hc]

theorem formatStage_err {F β : Type} (c : Ctx F β) (m1 : AttributionModel)
    (e : InseqError)
    (h : format_input_texts c.a.input_texts c.a.generated_texts = .error e) :
    attrFormatStage c m1 = ⟨m1, [], [], [], none, .error e⟩ := by
  unfold attrFormatStage
  rw [h]

/-- Claim C6 (confirmed): an empty input collection raises the
empty-input ValueError immediately with nothing dispatched and no backend
call; a target count differing from the input count raises
LengthMismatchError with nothing dispatched and no generation call. -/
theorem C6_validation_errors {F β : Type} (B : Backend F β) (m : AttributionModel)
    (a : AttributeArgs F) :
    (pyTruthy a.input_texts = false →
      AttributionModel.attribute B m a =
        ⟨m, [], [], [], none,
          .error (.valueError "At least one text must be provided to perform attribution.")⟩) ∧
    (∀ gt, pyTruthy a.input_texts = true → a.generated_texts = some gt →
      a.input_texts.toList.length ≠ gt.toList.length →
      (∀ d, a.device = some d → B.check_device d = true) →
      (AttributionModel.attribute B m a).result = .error .lengthMismatch ∧
      (AttributionModel.attribute B m a).dispatched = none ∧
      (AttributionModel.attribute B m a).gen_calls = []) := by
  constructor
  · intro hin
    unfold AttributionModel.attribute
    rw [if_pos (by simp [hin])]
  · intro gt hin hgt hne hdev
    obtain ⟨m1, h1⟩ := awf_device_ok B m (forcedArgs m a) hdev
    have hform : format_input_texts
        ((⟨B, forcedArgs m a, m._device⟩ : Ctx F β)).a.input_texts
        ((⟨B, forcedArgs m a, m._device⟩ : Ctx F β)).a.generated_texts =
        .error .lengthMismatch :=
      format_eq_err a.input_texts a.generated_texts gt hgt hne
    have h2 := formatStage_err ⟨B, forcedArgs m a, m._device⟩ m1 .lengthMismatch hform
    refine ⟨?_, ?_, ?_⟩
    · rw [attribute_result_eq B m a hin, h1, h2]
    · rw [attribute_dispatched_eq B m a hin, h1, h2]
    · rw [attribute_gen_calls_eq B m a hin, h1, h2]

/-- Claim C2 witness: decoder-only constrained decoding with two examples
and requested batch size 8 dispatches with batch size 1. -/
theorem C2_witness :
    (AttributionModel.attribute demoBackend demoDecModel c2Args).dispatched =
      some c2Prep ∧
    c2Args.batch_size = some 8 ∧ c2Prep.batch_size = some 1 := by
  have hd : (AttributionModel.attribute demoBackend demoDecModel c2Args).dispatched =
      some c2Prep := by decide
  refine ⟨hd, rfl, ?_⟩
  have h := C2_batch_size_forcing demoBackend demoDecModel c2Args c2Prep hd
  exact h.trans (by decide)

/-- Claim C3 witness: the spec scenario, with generation arguments
supplied and ignored. -/
theorem C3_witness :
    (AttributionModel.attribute demoBackend demoDecModel c3Args).gen_calls = [] ∧
    (AttributionModel.attribute demoBackend demoDecModel c3Args).result =
      .ok ⟨1, ⟨["how much is the cake?"], ["how much is the cake? 350 rubles"],
        [("num_beams", "3")], true, false⟩⟩ ∧
    "Generation arguments are provided, but will be ignored (constrained decoding)." ∈
      (AttributionModel.attribute demoBackend demoDecModel c3Args).warnings := by
  have h := C3_constrained_decoding_metadata demoBackend demoDecModel c3Args
    (.str "how much is the cake? 350 rubles") rfl rfl
  have hok : (AttributionModel.attribute demoBackend demoDecModel c3Args).result =
      .ok ⟨1, ⟨["how much is the cake?"], ["how much is the cake? 350 rubles"],
        [("num_beams", "3")], true, false⟩⟩ := by decide
  exact ⟨h.1, hok, (h.2 _ hok).2.2.2 (by decide)⟩

/-- Claim C4 witness: both flags requested on a decoder-only model; the
call proceeds as if they were off and both warnings are emitted. -/
theorem C4_witness :
    (AttributionModel.attribute demoBackend demoDecModel c4Args).result =
      (AttributionModel.attribute demoBackend demoDecModel
        { c4Args with attribute_target := false, generate_from_target_pfx := false }).result ∧
    "attribute_target parameter is set to True, but will be ignored (not an encoder-decoder)." ∈
      (AttributionModel.attribute demoBackend demoDecModel c4Args).warnings ∧
    "generate_from_target_prefix parameter is set to True, but will be ignored (not an encoder-decoder)." ∈
      (AttributionModel.attribute demoBackend demoDecModel c4Args).warnings := by
  have h := C4_flags_disabled_on_decoder_only demoBackend demoDecModel c4Args rfl
  exact ⟨h.1, h.2.2.2.2.1 rfl rfl, h.2.2.2.2.2 rfl rfl⟩

/-- Claim C5 witness: a violating and a conforming decoder-only
constrained call. -/
theorem C5_witness :
    (AttributionModel.attribute demoBackend demoDecModel c5BadArgs).result =
      .error (.assertionError
        "Forced generations with decoder-only models must start with the input texts.") ∧
    (AttributionModel.attribute demoBackend demoDecModel c5BadArgs).dispatched = none ∧
    (AttributionModel.attribute demoBackend demoDecModel c5OkArgs).dispatched.isSome =
      true := by
  have h1 := C5_decoder_only_prefix_precondition demoBackend demoDecModel c5BadArgs
    (.list ["zzz"]) "prob_fn" rfl rfl rfl rfl rfl (by decide) rfl
  have h2 := C5_decoder_only_prefix_precondition demoBackend demoDecModel c5OkArgs
    (.list ["abc def"]) "prob_fn" rfl rfl rfl rfl rfl (by decide) rfl
  exact ⟨(h1.1 (by decide)).1, (h1.1 (by decide)).2, h2.2 (by decide)⟩

/-- Claim C6 witness: the empty call and a one-input/two-targets call. -/
theorem C6_witness :
    AttributionModel.attribute demoBackend demoDecModel c6EmptyArgs =
      ⟨demoDecModel, [], [], [], none,
        .error (.valueError "At least one text must be provided to perform attribution.")⟩ ∧
    (AttributionModel.attribute demoBackend demoDecModel c6MismatchArgs).result =
      .error .lengthMismatch ∧
    (AttributionModel.attribute demoBackend demoDecModel c6MismatchArgs).dispatched =
      none := by
  have h1 := (C6_validation_errors demoBackend demoDecModel c6EmptyArgs).1 rfl
  have h2 := (C6_validation_errors demoBackend demoDecModel c6MismatchArgs).2
    (.list ["x", "y"]) rfl rfl (by decide) (fun d hd => nomatch hd)
  exact ⟨h1, h2.1, h2.2.1⟩

/-- Claim C8 witness: a model with no bound method and no requested
method raises the missing-method error and attribute returns no result; a
bound method resolves. -/
theorem C8_witness :
    (get_attribution_method noMethodModel c8Args.method
      c8Args.override_default_attribution).2.2 = .error .missingAttributionMethod ∧
    (∃ fa, (get_attribution_method demoDecModel c8Args.method
      c8Args.override_default_attribution).2.2 = .ok fa) ∧
    (AttributionModel.attribute demoBackend noMethodModel c8Args).result ≠
      .ok ⟨1, ⟨["a"], ["a gen"], [], false, false⟩⟩ := by
  refine ⟨(C8_missing_attribution_method demoBackend noMethodModel c8Args).1.mpr
      ⟨rfl, rfl⟩,
    (C8_missing_attribution_method demoBackend demoDecModel c8Args).2.1
      (Or.inr (by decide)),
    (C8_missing_attribution_method demoBackend noMethodModel c8Args).2.2 rfl rfl
      ⟨1, ⟨["a"], ["a gen"], [], false, false⟩⟩⟩
